import Mathlib

set_option maxRecDepth 10000

/-
Verification of the Mitsubishi heat pump IR codec (heatpump.py) and the
state-update web handler (server.py) of the heatpump-controller repository.

The python code is shallowly embedded:
 - pure byte/pulse computations become Lean functions on `Nat` / `List Nat`;
 - python exceptions become `Option` / `Except` / an error component of the
   result (for the in-place mutator `load_bytes`, which must keep the
   mutations made before the exception was raised, the embedding returns
   the mutated-so-far state together with `Option LoadErr`);
 - `time.localtime()` in `to_bytes` is replaced by an explicit `now`
   parameter holding the byte computed from it (`hour*6 + min/10`);
 - the python mode strings are kept verbatim; note that the code spells
   the cooling mode "cold" in every mode dictionary while the econo-cool
   checks compare the mode against the string "cool".
-/

namespace HeatPump

-- Timing constants (microseconds), verbatim from heatpump.py.
def HVAC_MISTSUBISHI_HDR_MARK : Nat := 3400
def HVAC_MISTSUBISHI_HDR_SPACE : Nat := 1750
def HVAC_MISTSUBISHI_BIT_MARK : Nat := 450
def HVAC_MISTSUBISHI_ONE_SPACE : Nat := 1300
def HVAC_MISTSUBISHI_ZERO_SPACE : Nat := 420
def HVAC_MISTSUBISHI_RPT_MARK : Nat := 440
def HVAC_MISTSUBISHI_RPT_SPACE : Nat := 17100

-- abs(a - b) on python ints, for natural number timings.
def tdiff (a b : Nat) : Nat := if b ≤ a then a - b else b - a

-- The clock field: the string "auto" or an integer count of 10-minute
-- increments since midnight.
inductive Clock where
  | auto : Clock
  | mins : Nat → Clock
deriving DecidableEq, Repr

-- The mutable instance state of class HeatPump (its class attributes).
structure State where
  «on» : Bool
  isee : Bool
  hvac_mode : String
  temp : Nat
  wide_vane : String
  fan_speed : Nat
  vane : String
  clock : Clock
  read_clock : Option Nat
  end_time : Nat
  start_time : Nat
  prog : String
  econo_cool : Bool
  clean_mode : Bool
  plasma : Bool
  long_mode : Bool
deriving DecidableEq, Repr

-- The default attribute values of class HeatPump (a fresh instance).
def initState : State :=
  { «on» := false, isee := false, hvac_mode := "auto", temp := 20,
    wide_vane := "middle", fan_speed := 0, vane := "auto", clock := Clock.auto,
    read_clock := none, end_time := 0, start_time := 0, prog := "none",
    econo_cool := false, clean_mode := false, plasma := false,
    long_mode := false }

-- Encode-side dictionaries of to_bytes; `none` is a python KeyError.
def hvacModeByte6 : String → Option Nat
  | "auto" => some 0x20
  | "heat" => some 0x08
  | "dry" => some 0x10
  | "cold" => some 0x18
  | _ => none

def hvacModeByte8 : String → Option Nat
  | "auto" => some 0x06
  | "heat" => some 0x00
  | "dry" => some 0x02
  | "cold" => some 0x06
  | _ => none

def wideVaneCode : String → Option Nat
  | "leftend" => some 0x10
  | "left" => some 0x20
  | "middle" => some 0x30
  | "right" => some 0x40
  | "rightend" => some 0x50
  | "sides" => some 0x80
  | "swing" => some 0xC0
  | _ => none

def vaneCode : String → Option Nat
  | "upend" => some 0x48
  | "up" => some 0x50
  | "middle" => some 0x58
  | "down" => some 0x60
  | "downend" => some 0x68
  | "swing" => some 0x78
  | "auto" => some 0x40
  | _ => none

/-- Bytes 0-16 built by `HeatPump.to_bytes` (the python appends the checksum
to this list as byte 17 just before returning).  `now` stands for the value
`t.tm_hour*6 + t.tm_min//10` read from `time.localtime()` when the clock is
set to auto.  `none` models the KeyError and AssertionError exits. -/
def to_bytes_body (s : State) (now : Nat) : Option (List Nat) :=
  match hvacModeByte6 s.hvac_mode with
  | none => none
  | some hvac6 =>
    if 16 ≤ s.temp ∧ s.temp ≤ 31 then
      match hvacModeByte8 s.hvac_mode, wideVaneCode s.wide_vane with
      | some hvac8, some wv =>
        if s.fan_speed ≤ 3 then
          match vaneCode s.vane with
          | none => none
          | some v0 =>
            -- "Cannot have vane set in econo mode": the python overrides the
            -- vane code with auto when econo cool (with mode "cool") or long
            -- mode is set.
            let vane := if (s.econo_cool && (s.hvac_mode == "cool")) || s.long_mode
                        then 0x40 else v0
            match (match s.clock with
                   | Clock.auto => some now
                   | Clock.mins c => if c ≤ 143 then some c else none) with
            | none => none
            | some b10 =>
              if s.end_time ≤ 143 then
                if s.start_time ≤ 143 then
                  some [0x23, 0xCB, 0x26, 0x01, 0x00,
                        if s.«on» then 0x20 else 0x00,
                        (if s.isee then 0x40 else 0x00) ||| hvac6,
                        s.temp - 16,
                        hvac8 ||| wv,
                        s.fan_speed ||| vane,
                        b10,
                        s.end_time,
                        s.start_time,
                        0x00,  -- byte 13: the prog dictionary is built but unused
                        (if s.econo_cool && (s.hvac_mode == "cool") && !s.long_mode
                         then 0x20 else 0x00) |||
                          (if s.clean_mode then 0x04 else 0x00),
                        (if s.long_mode then 0x10 else 0x00) |||
                          (if s.plasma then 0x04 else 0x00),
                        0x00]
                else none
              else none
        else none
      | _, _ => none
    else none

/-- `HeatPump.to_bytes`: the 17 data bytes followed by the truncated-sum
checksum byte. -/
def to_bytes (s : State) (now : Nat) : Option (List Nat) :=
  (to_bytes_body s now).map (fun ret => ret ++ [ret.sum &&& 0xFF])

/-- The inner loop of `HeatPump.encode`: one byte becomes eight
(bit mark, space) pairs, least significant bit first. -/
def encodeByte (byte : Nat) : List Nat :=
  (List.range 8).flatMap (fun shift =>
    [HVAC_MISTSUBISHI_BIT_MARK,
     if (1 <<< shift) &&& byte = 0 then HVAC_MISTSUBISHI_ZERO_SPACE
     else HVAC_MISTSUBISHI_ONE_SPACE])

-- The little-endian bit view of a byte, matching the emission order of
-- encodeByte and the accumulation order of the bit decoder.
def bitsOfByte (b : Nat) : List Bool :=
  (List.range 8).map (fun shift => if (1 <<< shift) &&& b = 0 then false else true)

/-- `HeatPump.encode` on an explicit 18-byte list: header, 144 bit pairs,
repeat mark and space, the same header and bit pairs again, and a final
repeat mark (the python then packs this list of ints for /dev/lircX;
the packing is outside the embedding). -/
def encode (req_bytes : List Nat) : List Nat :=
  [HVAC_MISTSUBISHI_HDR_MARK, HVAC_MISTSUBISHI_HDR_SPACE]
  ++ req_bytes.flatMap encodeByte
  ++ [HVAC_MISTSUBISHI_RPT_MARK, HVAC_MISTSUBISHI_RPT_SPACE,
      HVAC_MISTSUBISHI_HDR_MARK, HVAC_MISTSUBISHI_HDR_SPACE]
  ++ req_bytes.flatMap encodeByte
  ++ [HVAC_MISTSUBISHI_RPT_MARK]

-- One header + data + repeat-mark unit of the pulse train; `encode req`
-- is two of these around one repeat space.
def encodeHalf (req : List Nat) : List Nat :=
  [HVAC_MISTSUBISHI_HDR_MARK, HVAC_MISTSUBISHI_HDR_SPACE]
  ++ req.flatMap encodeByte ++ [HVAC_MISTSUBISHI_RPT_MARK]

-- Error kinds raised by the decoding functions.  The python raises
-- AssertionError or a plain Exception at the corresponding places; the
-- constructor names follow the error taxonomy used in the design notes.
inductive DecodeErr where
  | badMark : DecodeErr        -- assert on the bit mark in _decode_bits
  | badTiming : DecodeErr      -- raise Exception("Bad value")
  | badLength288 : DecodeErr   -- assert len(values) == 288
  | checksumError : DecodeErr  -- raise Exception("Invalid checksum")
  | badHdrMark : DecodeErr     -- assert on values[0] in the 291 branch
  | badHdrSpace : DecodeErr    -- assert on values[1] in the 291 branch
  | badRptMark : DecodeErr     -- assert on values[290] in the 291 branch
  | badRptSpace : DecodeErr    -- assert on values[291] in the 583 branch
  | repeatMismatch : DecodeErr -- assert tuple(mesg1) == tuple(mesg2)
  | noValidFrame : DecodeErr   -- raise Exception("No valid codes found")
  | noHeader : DecodeErr       -- raise Exception("Could not find valid starting pulse")
  | invalidLength : DecodeErr  -- raise Exception("Incorrect list size")
deriving DecidableEq, Repr

-- Decidable equality of decoder results, so that concrete runs of the
-- decoding functions can be checked by evaluation.
instance instDecEqExcept {ε α : Type} [DecidableEq ε] [DecidableEq α] :
    DecidableEq (Except ε α) := fun x y =>
  match x, y with
  | Except.ok a, Except.ok b =>
    match decEq a b with
    | isTrue h => isTrue (h ▸ rfl)
    | isFalse h => isFalse (fun hc => h (Except.ok.inj hc))
  | Except.error e, Except.error f =>
    match decEq e f with
    | isTrue h => isTrue (h ▸ rfl)
    | isFalse h => isFalse (fun hc => h (Except.error.inj hc))
  | Except.ok _, Except.error _ => isFalse (fun hc => Except.noConfusion hc)
  | Except.error _, Except.ok _ => isFalse (fun hc => Except.noConfusion hc)

/-- The bit loop of `HeatPump._decode_bits`: consume (mark, space) pairs,
checking the mark against the bit-mark duration and classifying each space
as a zero or a one, both within the tolerance.  The python interleaves this
with the byte bookkeeping (`value`, `mask`, appending every 8 bits); here
the bits are collected first and grouped into bytes by `bytesOfBits`. -/
def pairsToBits (values : List Nat) (tol : Nat) : Except DecodeErr (List Bool) :=
  match values with
  | [] => Except.ok []
  | [_] => Except.error DecodeErr.badMark  -- unreachable: callers pass even lengths
  | mark :: space :: rest =>
    if tdiff HVAC_MISTSUBISHI_BIT_MARK mark < tol then
      if tdiff HVAC_MISTSUBISHI_ZERO_SPACE space < tol then
        match pairsToBits rest tol with
        | Except.ok bits => Except.ok (false :: bits)
        | Except.error e => Except.error e
      else if tdiff HVAC_MISTSUBISHI_ONE_SPACE space < tol then
        match pairsToBits rest tol with
        | Except.ok bits => Except.ok (true :: bits)
        | Except.error e => Except.error e
      else Except.error DecodeErr.badTiming
    else Except.error DecodeErr.badMark

-- value |= mask accumulation: bit i of the byte has weight 2^i, bit 0 first.
def byteOfBits : List Bool → Nat
  | [] => 0
  | b :: rest => (if b then 1 else 0) + 2 * byteOfBits rest

-- The byte grouping of _decode_bits: every 8 bits form one byte.
def bytesOfBits : List Bool → List Nat
  | b0 :: b1 :: b2 :: b3 :: b4 :: b5 :: b6 :: b7 :: rest =>
      byteOfBits [b0, b1, b2, b3, b4, b5, b6, b7] :: bytesOfBits rest
  | _ => []

/-- `HeatPump._decode_bits`: 288 pulse values to 18 bytes, then the checksum
check `sum(ret[0:17]) & 0xFF == ret[17]`. -/
def decode_bits (values : List Nat) (tol : Nat) : Except DecodeErr (List Nat) :=
  if values.length = 288 then
    match pairsToBits values tol with
    | Except.error e => Except.error e
    | Except.ok bits =>
      let ret := bytesOfBits bits
      if (ret.take 17).sum &&& 0xFF = ret.getD 17 0 then Except.ok ret
      else Except.error DecodeErr.checksumError
  else Except.error DecodeErr.badLength288

/-- The `len(values) == 291` branch of `HeatPump.decode`: header mark and
space and the trailing repeat mark within twice the tolerance, then the 288
interior values go to `_decode_bits`.  The recursive calls of the python
`decode` always pass slices of length exactly 291, so they land in this
branch; the embedding calls it directly. -/
def decode291 (values : List Nat) (tol : Nat) : Except DecodeErr (List Nat) :=
  if tdiff HVAC_MISTSUBISHI_HDR_MARK (values.getD 0 0) < tol * 2 then
    if tdiff HVAC_MISTSUBISHI_HDR_SPACE (values.getD 1 0) < tol * 2 then
      if tdiff HVAC_MISTSUBISHI_RPT_MARK (values.getD 290 0) < tol * 2 then
        decode_bits ((values.drop 2).take 288) tol
      else Except.error DecodeErr.badRptMark
    else Except.error DecodeErr.badHdrSpace
  else Except.error DecodeErr.badHdrMark

/-- The header search of the `len(values) >= 291` branch of `HeatPump.decode`:
scan offsets `i` in `range(len(values)-290)` for a header mark within twice
the tolerance, try a 291-length decode there, and return the first success;
every failure of the sub-attempt is caught by the bare except and the scan
continues. -/
def headerSearch (values : List Nat) (tol : Nat) (i : Nat) :
    Except DecodeErr (List Nat) :=
  if h : i + 291 ≤ values.length then
    if tdiff HVAC_MISTSUBISHI_HDR_MARK (values.getD i 0) < tol * 2 then
      match decode291 ((values.drop i).take 291) tol with
      | Except.ok mesg => Except.ok mesg
      | Except.error _ => headerSearch values tol (i + 1)
    else headerSearch values tol (i + 1)
  else Except.error DecodeErr.noHeader
termination_by values.length - i
decreasing_by
  all_goals omega

/-- `HeatPump.decode`.  In the 583 branch the python wraps each recursive
half decode in `try ... except: pass`, leaving `mesg1` / `mesg2` as None on
any failure, and then reconciles the two outcomes; the match below is that
reconciliation. -/
def decode (values : List Nat) (tol : Nat) : Except DecodeErr (List Nat) :=
  if values.length = 583 then
    if tdiff HVAC_MISTSUBISHI_RPT_SPACE (values.getD 291 0) < tol * 2 then
      match decode291 (values.take 291) tol, decode291 (values.drop 292) tol with
      | Except.ok mesg1, Except.error _ => Except.ok mesg1
      | Except.error _, Except.ok mesg2 => Except.ok mesg2
      | Except.ok mesg1, Except.ok mesg2 =>
          if mesg1 = mesg2 then Except.ok mesg1
          else Except.error DecodeErr.repeatMismatch
      | Except.error _, Except.error _ => Except.error DecodeErr.noValidFrame
    else Except.error DecodeErr.badRptSpace
  else if values.length = 291 then
    decode291 values tol
  else if 291 ≤ values.length then
    headerSearch values tol 0
  else Except.error DecodeErr.invalidLength

-- Decode-side dictionaries of load_bytes; `none` is a python KeyError.
def hvacFromByte6 : Nat → Option String
  | 0x20 => some "auto"
  | 0x08 => some "heat"
  | 0x10 => some "dry"
  | 0x18 => some "cold"
  | _ => none

def wideVaneFromByte8 : Nat → Option String
  | 0x10 => some "leftend"
  | 0x20 => some "left"
  | 0x30 => some "middle"
  | 0x40 => some "right"
  | 0x50 => some "rightend"
  | 0x80 => some "sides"
  | 0xC0 => some "swing"
  | _ => none

-- The allowed-modes dictionary of the byte 8 cross check.
def byte8Modes : Nat → Option (List String)
  | 0x00 => some ["heat"]
  | 0x02 => some ["dry"]
  | 0x06 => some ["cold", "auto"]
  | _ => none

def vaneFromByte9 : Nat → Option String
  | 0x48 => some "upend"
  | 0x50 => some "up"
  | 0x58 => some "middle"
  | 0x60 => some "down"
  | 0x68 => some "downend"
  | 0x78 => some "swing"
  | 0x00 => some "auto"
  | 0x40 => some "auto"
  | _ => none

def progFromByte : Nat → Option String
  | 0x0 => some "none"
  | 0x5 => some "start"
  | 0x3 => some "end"
  | 0x7 => some "startend"
  | _ => none

-- Error kinds raised by load_bytes (AssertionError, KeyError, IndexError or
-- the plain Exception of byte 5, at the corresponding source lines).
inductive LoadErr where
  | shortFrame : LoadErr    -- IndexError: the accessed index is absent
  | badHeader : LoadErr     -- asserts on bytes 0-4
  | badByte5 : LoadErr      -- raise Exception("Unexpected value for byte 5")
  | badBits6 : LoadErr      -- assert 0x78 & values[6] == values[6]
  | badMode6 : LoadErr      -- KeyError in the byte 6 mode dictionary
  | badBits7 : LoadErr      -- assert 0x0f & values[7] == values[7]
  | badBits8 : LoadErr      -- assert 0xf7 & values[8] == values[8]
  | badWideVane : LoadErr   -- KeyError in the wide vane dictionary
  | badMode8Key : LoadErr   -- KeyError in the byte 8 modes dictionary
  | badMode8 : LoadErr      -- assert hvac_mode in allowed modes
  | badFanSpeed : LoadErr   -- assert fan_speed <= 3
  | badVane : LoadErr       -- KeyError in the vane dictionary
  | badClock : LoadErr      -- assert values[10] <= 143
  | badEndTime : LoadErr    -- assert values[11] <= 143
  | badStartTime : LoadErr  -- assert values[12] <= 143
  | badProg : LoadErr       -- KeyError in the timer program dictionary
  | badBits14 : LoadErr     -- assert values[14] & 0x24 == values[14]
  | econoMode : LoadErr     -- assert self.hvac_mode == "cool"
  | econoVane : LoadErr     -- assert self.vane == "auto"
  | badBits15 : LoadErr     -- assert values[15] & 0x1C == values[15]
  | badByte16 : LoadErr     -- assert values[16] == 0
deriving DecidableEq, Repr

-- One step of load_bytes: on a pending error the remaining statements do
-- not run and the state mutated so far is kept (the python raises).
def andThen (r : State × Option LoadErr) (f : State → State × Option LoadErr) :
    State × Option LoadErr :=
  match r with
  | (s, some e) => (s, some e)
  | (s, none) => f s

-- Bytes 0-4: constant preamble.
def ldConst (v : List Nat) (s : State) : State × Option LoadErr :=
  if v.get? 0 = some 0x23 ∧ v.get? 1 = some 0xCB ∧ v.get? 2 = some 0x26 ∧
     v.get? 3 = some 0x01 ∧ v.get? 4 = some 0x00
  then (s, none) else (s, some LoadErr.badHeader)

-- Byte 5: on or off.
def ld5 (v : List Nat) (s : State) : State × Option LoadErr :=
  match v.get? 5 with
  | none => (s, some LoadErr.shortFrame)
  | some 0x20 => ({s with «on» := true}, none)
  | some 0x00 => ({s with «on» := false}, none)
  | some _ => (s, some LoadErr.badByte5)

-- Byte 6: reserved bits, isee, mode (isee is stored before the mode lookup
-- can fail, as in the source).
def ld6 (v : List Nat) (s : State) : State × Option LoadErr :=
  match v.get? 6 with
  | none => (s, some LoadErr.shortFrame)
  | some b =>
    if 0x78 &&& b = b then
      match hvacFromByte6 (b &&& 0x38) with
      | some m => ({s with isee := b &&& 0x40 != 0, hvac_mode := m}, none)
      | none => ({s with isee := b &&& 0x40 != 0}, some LoadErr.badMode6)
    else (s, some LoadErr.badBits6)

-- Byte 7: temperature.
def ld7 (v : List Nat) (s : State) : State × Option LoadErr :=
  match v.get? 7 with
  | none => (s, some LoadErr.shortFrame)
  | some b =>
    if 0x0f &&& b = b then ({s with temp := b + 16}, none)
    else (s, some LoadErr.badBits7)

-- Byte 8: reserved bits, wide vane, mode cross check (the wide vane is
-- stored before the cross check can fail, as in the source).
def ld8 (v : List Nat) (s : State) : State × Option LoadErr :=
  match v.get? 8 with
  | none => (s, some LoadErr.shortFrame)
  | some b =>
    if 0xf7 &&& b = b then
      match wideVaneFromByte8 (b &&& 0xF0) with
      | none => (s, some LoadErr.badWideVane)
      | some w =>
        -- self.wide_vane is assigned first; the cross check reads
        -- self.hvac_mode, which the assignment leaves untouched
        match byte8Modes (b &&& 0x07) with
        | none => ({s with wide_vane := w}, some LoadErr.badMode8Key)
        | some allowed =>
          if s.hvac_mode ∈ allowed then ({s with wide_vane := w}, none)
          else ({s with wide_vane := w}, some LoadErr.badMode8)
    else (s, some LoadErr.badBits8)

-- Byte 9: fan speed and vane.
def ld9 (v : List Nat) (s : State) : State × Option LoadErr :=
  match v.get? 9 with
  | none => (s, some LoadErr.shortFrame)
  | some b =>
    if b &&& 0x07 ≤ 3 then
      match vaneFromByte9 (b &&& 0x78) with
      | some vn => ({s with fan_speed := b &&& 0x07, vane := vn}, none)
      | none => ({s with fan_speed := b &&& 0x07}, some LoadErr.badVane)
    else (s, some LoadErr.badFanSpeed)

-- Byte 10: observed clock (stored in read_clock, not clock).
def ld10 (v : List Nat) (s : State) : State × Option LoadErr :=
  match v.get? 10 with
  | none => (s, some LoadErr.shortFrame)
  | some b =>
    if b ≤ 143 then ({s with read_clock := some b}, none)
    else (s, some LoadErr.badClock)

-- Byte 11: end time.
def ld11 (v : List Nat) (s : State) : State × Option LoadErr :=
  match v.get? 11 with
  | none => (s, some LoadErr.shortFrame)
  | some b =>
    if b ≤ 143 then ({s with end_time := b}, none)
    else (s, some LoadErr.badEndTime)

-- Byte 12: start time.
def ld12 (v : List Nat) (s : State) : State × Option LoadErr :=
  match v.get? 12 with
  | none => (s, some LoadErr.shortFrame)
  | some b =>
    if b ≤ 143 then ({s with start_time := b}, none)
    else (s, some LoadErr.badStartTime)

-- Byte 13: timer program, exact dictionary lookup.
def ld13 (v : List Nat) (s : State) : State × Option LoadErr :=
  match v.get? 13 with
  | none => (s, some LoadErr.shortFrame)
  | some b =>
    match progFromByte b with
    | some p => ({s with prog := p}, none)
    | none => (s, some LoadErr.badProg)

-- Byte 14: reserved bits, econo cool, clean mode, then the strict econo
-- cross checks (both flags are stored before the checks can fail).
def ld14 (v : List Nat) (s : State) : State × Option LoadErr :=
  match v.get? 14 with
  | none => (s, some LoadErr.shortFrame)
  | some b =>
    if b &&& 0x24 = b then
      -- both flags are assigned first; the strict checks read
      -- self.hvac_mode and self.vane, which the assignments leave untouched
      if b &&& 0x20 != 0 then
        if s.hvac_mode = "cool" then
          if s.vane = "auto" then
            ({s with econo_cool := b &&& 0x20 != 0,
                     clean_mode := b &&& 0x04 != 0}, none)
          else
            ({s with econo_cool := b &&& 0x20 != 0,
                     clean_mode := b &&& 0x04 != 0}, some LoadErr.econoVane)
        else
          ({s with econo_cool := b &&& 0x20 != 0,
                   clean_mode := b &&& 0x04 != 0}, some LoadErr.econoMode)
      else
        ({s with econo_cool := b &&& 0x20 != 0,
                 clean_mode := b &&& 0x04 != 0}, none)
    else (s, some LoadErr.badBits14)

-- Byte 15: reserved bits, plasma, long mode.
def ld15 (v : List Nat) (s : State) : State × Option LoadErr :=
  match v.get? 15 with
  | none => (s, some LoadErr.shortFrame)
  | some b =>
    if b &&& 0x1C = b then
      ({s with plasma := b &&& 0x04 != 0, long_mode := b &&& 0x10 != 0}, none)
    else (s, some LoadErr.badBits15)

-- Byte 16: must be zero (byte 17 is not read: the checksum was already
-- checked at the pulse level).
def ld16 (v : List Nat) (s : State) : State × Option LoadErr :=
  match v.get? 16 with
  | none => (s, some LoadErr.shortFrame)
  | some b =>
    if b = 0 then (s, none) else (s, some LoadErr.badByte16)

/-- `HeatPump.load_bytes`: sequentially applies the per-byte sections to the
instance state; a raised exception stops the sequence but keeps every
mutation already made. -/
def load_bytes (s : State) (values : List Nat) : State × Option LoadErr :=
  andThen (andThen (andThen (andThen (andThen (andThen (andThen (andThen
    (andThen (andThen (andThen (andThen
      (ldConst values s)
      (ld5 values)) (ld6 values)) (ld7 values)) (ld8 values)) (ld9 values))
      (ld10 values)) (ld11 values)) (ld12 values)) (ld13 values))
      (ld14 values)) (ld15 values)) (ld16 values)

/-- `HeatPump.set_temperature`: clamp into [16,31] (the python first applies
`int`, so the argument is modelled as an integer). -/
def set_temperature (s : State) (t : Int) : State :=
  let t := if t > 31 then 31 else t
  let t := if t < 16 then 16 else t
  {s with temp := t.toNat}

end HeatPump

namespace Server

open HeatPump

-- Error raised inside the /api/set handler (the set_fan assert).
inductive ApiErr where
  | invalidFan : ApiErr
deriving DecidableEq, Repr

-- The JSON value supplied for the temp key: a plain number, or the
-- two-element delta forms ["+", n] and ["-", n].
inductive TempReq where
  | abs : Int → TempReq
  | plus : Int → TempReq
  | minus : Int → TempReq
deriving DecidableEq, Repr

-- The JSON value supplied for the fan_speed key: "auto" or an integer.
inductive FanReq where
  | auto : FanReq
  | level : Int → FanReq
deriving DecidableEq, Repr

/-- `HeatPump.set_fan`: "auto" means 0, an integer must be in [0,3] (the
assert is the error case). -/
def set_fan (s : State) (f : FanReq) : State × Option ApiErr :=
  match f with
  | FanReq.auto => ({s with fan_speed := 0}, none)
  | FanReq.level n =>
    if 0 ≤ n ∧ n ≤ 3 then ({s with fan_speed := n.toNat}, none)
    else (s, some ApiErr.invalidFan)

/-- The partial-update document accepted by the /api/set handler.  Every
key is optional.  The source also reads prog, econo_cool and long_mode
keys, but those branches assign a string or a boolean into the integer
field `pump.end_time` (the same copy-paste slip shown for start_time
below); such ill-typed writes have no `State` representation, so those
three keys are left out of the embedded request. -/
structure SetReq where
  on? : Option Bool := none
  hvac_mode? : Option String := none
  temp? : Option TempReq := none
  wide_vane? : Option String := none
  fan_speed? : Option FanReq := none
  vane? : Option String := none
  clock? : Option Clock := none
  end_time? : Option Nat := none
  start_time? : Option Nat := none
deriving DecidableEq, Repr

/-- The mutation part of the /api/set handler of server.py (the JSON
plumbing, the previous/new snapshots and the apply-transmit step are
outside the embedding).  Note the source line
`pump.end_time = data['start_time']`: the start_time branch writes the
supplied value into end_time. -/
def apiSet (pump : State) (data : SetReq) : State × Option ApiErr :=
  let pump := match data.on? with
    | some b => {pump with «on» := b}
    | none => pump
  let pump := match data.hvac_mode? with
    | some m => {pump with hvac_mode := m}
    | none => pump
  let pump := match data.temp? with
    | some (TempReq.plus n) => set_temperature pump ((pump.temp : Int) + n)
    | some (TempReq.minus n) => set_temperature pump ((pump.temp : Int) - n)
    | some (TempReq.abs t) => set_temperature pump t
    | none => pump
  let pump := match data.wide_vane? with
    | some w => {pump with wide_vane := w}
    | none => pump
  match (match data.fan_speed? with
         | some f => set_fan pump f
         | none => (pump, none)) with
  | (pump, some e) => (pump, some e)
  | (pump, none) =>
    let pump := match data.vane? with
      | some vn => {pump with vane := vn}
      | none => pump
    let pump := match data.clock? with
      | some c => {pump with clock := c}
      | none => pump
    let pump := match data.end_time? with
      | some v => {pump with end_time := v}
      | none => pump
    -- source: `pump.end_time = data['start_time']` (sic)
    let pump := match data.start_time? with
      | some v => {pump with end_time := v}
      | none => pump
    (pump, none)

end Server

namespace HeatPump

-- Concrete inputs used by the claim theorems and witnesses below.

-- A state that is valid for the documented invariants: econo cool set, the
-- cooling mode (spelled "cold" by the mode dictionaries) and vane auto.
def c1State : State :=
  {initState with «on» := true, hvac_mode := "cold", econo_cool := true}

-- The frame to_bytes produces for it: byte 14 is 0x00, the econo bit is gone.
def c1Frame : List Nat :=
  [0x23, 0xCB, 0x26, 0x01, 0x00, 0x20, 0x18, 0x04, 0x36, 0x40,
   0x00, 0x00, 0x00, 0x00, 0x00, 0x00, 0x00, 0xC7]

-- A frame to_bytes emits for the default state with now = 0.
def c2Frame : List Nat :=
  [0x23, 0xCB, 0x26, 0x01, 0x00, 0x00, 0x20, 0x04, 0x36, 0x40,
   0x00, 0x00, 0x00, 0x00, 0x00, 0x00, 0x00, 0xAF]

-- The sample frame of the to_bytes source comment, with the stated 0x0B
-- checksum, and a copy whose checksum byte is wrong.
def c2BadFrame : List Nat :=
  [0x23, 0xCB, 0x26, 0x01, 0x00, 0x20, 0x08, 0x05, 0x30, 0x45,
   0x54, 0x00, 0x00, 0x00, 0x00, 0x00, 0x00, 0x0C]

def c3Frame : List Nat :=
  [0x23, 0xCB, 0x26, 0x01, 0x00, 0x20, 0x08, 0x05, 0x30, 0x45,
   0x54, 0x00, 0x00, 0x00, 0x00, 0x00, 0x00, 0x0B]

-- A state with econo cool set while the mode is heat.
def c4State : State := {initState with hvac_mode := "heat", econo_cool := true}

-- The frame to_bytes silently produces for it.
def c4Frame : List Nat :=
  [0x23, 0xCB, 0x26, 0x01, 0x00, 0x00, 0x08, 0x04, 0x30, 0x40,
   0x00, 0x00, 0x00, 0x00, 0x00, 0x00, 0x00, 0x91]

def c5Frame : List Nat :=
  [0x23, 0xCB, 0x26, 0x01, 0x00, 0x20, 0x08, 0x05, 0x30, 0x45,
   0x54, 0x00, 0x00, 0x00, 0x00, 0x00, 0x00, 0x0B]

-- A well-timed single frame unit (header + 288 bit values + repeat mark)
-- carrying a frame whose checksum byte is wrong, and one carrying a good
-- frame; then the 583-value double-frame input made of the two.
def c6Good : List Nat :=
  [0x23, 0xCB, 0x26, 0x01, 0x00, 0x20, 0x08, 0x05, 0x30, 0x45,
   0x54, 0x00, 0x00, 0x00, 0x00, 0x00, 0x00, 0x0B]

def c6Bad : List Nat :=
  [0x23, 0xCB, 0x26, 0x01, 0x00, 0x20, 0x08, 0x05, 0x30, 0x45,
   0x54, 0x00, 0x00, 0x00, 0x00, 0x00, 0x00, 0x0C]

def c6BadHalf : List Nat := encodeHalf c6Bad

def c6GoodHalf : List Nat := encodeHalf c6Good

def c6Vals : List Nat := c6BadHalf ++ HVAC_MISTSUBISHI_RPT_SPACE :: c6GoodHalf

-- A frame with timer program byte 0x05 (timers: start); load_bytes does not
-- read byte 17, so its value is irrelevant to the success.
def c8Frame : List Nat :=
  [0x23, 0xCB, 0x26, 0x01, 0x00, 0x00, 0x20, 0x04, 0x36, 0x40,
   0x00, 0x00, 0x00, 0x05, 0x00, 0x00, 0x00, 0x00]

-- Valid preamble, valid bytes 5-7, then a reserved-bit violation in byte 8
-- (bit 3 set).
def c10Frame : List Nat :=
  [0x23, 0xCB, 0x26, 0x01, 0x00, 0x20, 0x58, 0x06, 0x08,
   0x00, 0x00, 0x00, 0x00, 0x00, 0x00, 0x00, 0x00, 0x00]

-- Truncating a sum to 8 bits with a mask is reduction mod 256.
theorem and255 (n : Nat) : n &&& 0xFF = n % 256 := by
  show n &&& (2 ^ 8 - 1) = n % 2 ^ 8
  exact Nat.and_pow_two_sub_one_eq_mod n 8

-- Every successful to_bytes_body result is the 17-element literal list.
theorem to_bytes_body_length {s : State} {now : Nat} {r : List Nat}
    (h : to_bytes_body s now = some r) : r.length = 17 := by
  unfold to_bytes_body at h
  repeat' split at h
  all_goals first
  | exact Option.noConfusion h
  | (injection h with h; subst h; rfl)

-- Every successful to_bytes_body result has 0x00 at index 13.
theorem to_bytes_body_byte13 {s : State} {now : Nat} {r : List Nat}
    (h : to_bytes_body s now = some r) : r.getD 13 0 = 0 := by
  unfold to_bytes_body at h
  repeat' split at h
  all_goals first
  | exact Option.noConfusion h
  | (injection h with h; subst h; rfl)

-- When the mode string differs from "cool" (it always does for the
-- dictionary modes), the econo bit of the emitted byte 14 is clear.
theorem to_bytes_body_byte14_bit_clear {s : State} {now : Nat} {r : List Nat}
    (hm : s.hvac_mode ≠ "cool") (h : to_bytes_body s now = some r) :
    r.getD 14 0 &&& 0x20 = 0 := by
  have hbeq : (s.hvac_mode == "cool") = false := by
    simpa using hm
  unfold to_bytes_body at h
  rw [hbeq] at h
  simp only [Bool.and_false, Bool.false_and, Bool.false_or] at h
  repeat' split at h
  all_goals first
  | exact Option.noConfusion h
  | (injection h with h; subst h; first | rfl | simp_all)
  all_goals decide

-- A successful step chain means the first part succeeded and the second
-- ran from its result.
theorem andThen_ok {r : State × Option LoadErr}
    {f : State → State × Option LoadErr} {s' : State}
    (h : andThen r f = (s', none)) :
    ∃ s1, r = (s1, none) ∧ f s1 = (s', none) := by
  rcases r with ⟨s1, e⟩
  cases e with
  | none => exact ⟨s1, rfl, h⟩
  | some e => exact absurd h (by simp [andThen])

-- The byte 6 mode dictionary never returns the string "cool".
theorem hvacFromByte6_ne_cool {x : Nat} {m : String}
    (h : hvacFromByte6 x = some m) : m ≠ "cool" := by
  unfold hvacFromByte6 at h
  repeat' split at h
  all_goals first
  | exact Option.noConfusion h
  | (injection h with h; subst h; decide)

-- Per-step inversion facts for the successful load_bytes sections.
theorem ldConst_ok {v : List Nat} {s s' : State}
    (h : ldConst v s = (s', none)) : s' = s := by
  unfold ldConst at h
  repeat' split at h
  all_goals first
  | exact absurd (congrArg Prod.snd h) (fun hc => Option.noConfusion hc)
  | (have hfst := congrArg Prod.fst h; subst hfst; simp_all [List.getD])

theorem ld5_ok {v : List Nat} {s s' : State} (h : ld5 v s = (s', none)) :
    s'.hvac_mode = s.hvac_mode ∧ s'.prog = s.prog := by
  unfold ld5 at h
  repeat' split at h
  all_goals first
  | exact absurd (congrArg Prod.snd h) (fun hc => Option.noConfusion hc)
  | (have hfst := congrArg Prod.fst h; subst hfst; simp_all [List.getD])

theorem ld6_ok {v : List Nat} {s s' : State} (h : ld6 v s = (s', none)) :
    hvacFromByte6 ((v.getD 6 0) &&& 0x38) = some s'.hvac_mode
    ∧ s'.prog = s.prog := by
  unfold ld6 at h
  repeat' split at h
  all_goals first
  | exact absurd (congrArg Prod.snd h) (fun hc => Option.noConfusion hc)
  | (have hfst := congrArg Prod.fst h; subst hfst; simp_all [List.getD])

theorem ld7_ok {v : List Nat} {s s' : State} (h : ld7 v s = (s', none)) :
    s'.hvac_mode = s.hvac_mode ∧ s'.prog = s.prog := by
  unfold ld7 at h
  repeat' split at h
  all_goals first
  | exact absurd (congrArg Prod.snd h) (fun hc => Option.noConfusion hc)
  | (have hfst := congrArg Prod.fst h; subst hfst; simp_all [List.getD])

theorem ld8_ok {v : List Nat} {s s' : State} (h : ld8 v s = (s', none)) :
    s'.hvac_mode = s.hvac_mode ∧ s'.prog = s.prog := by
  unfold ld8 at h
  repeat' split at h
  all_goals first
  | exact absurd (congrArg Prod.snd h) (fun hc => Option.noConfusion hc)
  | (have hfst := congrArg Prod.fst h; subst hfst; simp_all [List.getD])

theorem ld9_ok {v : List Nat} {s s' : State} (h : ld9 v s = (s', none)) :
    s'.hvac_mode = s.hvac_mode ∧ s'.prog = s.prog := by
  unfold ld9 at h
  repeat' split at h
  all_goals first
  | exact absurd (congrArg Prod.snd h) (fun hc => Option.noConfusion hc)
  | (have hfst := congrArg Prod.fst h; subst hfst; simp_all [List.getD])

theorem ld10_ok {v : List Nat} {s s' : State} (h : ld10 v s = (s', none)) :
    s'.hvac_mode = s.hvac_mode ∧ s'.prog = s.prog := by
  unfold ld10 at h
  repeat' split at h
  all_goals first
  | exact absurd (congrArg Prod.snd h) (fun hc => Option.noConfusion hc)
  | (have hfst := congrArg Prod.fst h; subst hfst; simp_all [List.getD])

theorem ld11_ok {v : List Nat} {s s' : State} (h : ld11 v s = (s', none)) :
    s'.hvac_mode = s.hvac_mode ∧ s'.prog = s.prog := by
  unfold ld11 at h
  repeat' split at h
  all_goals first
  | exact absurd (congrArg Prod.snd h) (fun hc => Option.noConfusion hc)
  | (have hfst := congrArg Prod.fst h; subst hfst; simp_all [List.getD])

theorem ld12_ok {v : List Nat} {s s' : State} (h : ld12 v s = (s', none)) :
    s'.hvac_mode = s.hvac_mode ∧ s'.prog = s.prog := by
  unfold ld12 at h
  repeat' split at h
  all_goals first
  | exact absurd (congrArg Prod.snd h) (fun hc => Option.noConfusion hc)
  | (have hfst := congrArg Prod.fst h; subst hfst; simp_all [List.getD])

theorem ld13_ok {v : List Nat} {s s' : State} (h : ld13 v s = (s', none)) :
    progFromByte (v.getD 13 0) = some s'.prog
    ∧ s'.hvac_mode = s.hvac_mode := by
  unfold ld13 at h
  repeat' split at h
  all_goals first
  | exact absurd (congrArg Prod.snd h) (fun hc => Option.noConfusion hc)
  | (have hfst := congrArg Prod.fst h; subst hfst; simp_all [List.getD])

theorem ld14_ok {v : List Nat} {s s' : State} (h : ld14 v s = (s', none)) :
    s'.prog = s.prog
    ∧ (s.hvac_mode ≠ "cool" → (v.getD 14 0) &&& 0x20 = 0) := by
  unfold ld14 at h
  repeat' split at h
  all_goals first
  | exact absurd (congrArg Prod.snd h) (fun hc => Option.noConfusion hc)
  | (have hfst := congrArg Prod.fst h; subst hfst; simp_all [List.getD])

theorem ld15_ok {v : List Nat} {s s' : State} (h : ld15 v s = (s', none)) :
    s'.prog = s.prog := by
  unfold ld15 at h
  repeat' split at h
  all_goals first
  | exact absurd (congrArg Prod.snd h) (fun hc => Option.noConfusion hc)
  | (have hfst := congrArg Prod.fst h; subst hfst; simp_all [List.getD])

theorem ld16_ok {v : List Nat} {s s' : State} (h : ld16 v s = (s', none)) :
    s' = s := by
  unfold ld16 at h
  repeat' split at h
  all_goals first
  | exact absurd (congrArg Prod.snd h) (fun hc => Option.noConfusion hc)
  | (have hfst := congrArg Prod.fst h; subst hfst; simp_all [List.getD])

-- The two decode-side facts the claims need from a successful load_bytes
-- run: the timer program field comes from the exact byte 13 lookup, and
-- the econo bit of byte 14 must have been clear (the decoded mode string
-- is never "cool", so the strict econo check cannot pass).
theorem load_bytes_ok_inv {s s' : State} {values : List Nat}
    (h : load_bytes s values = (s', none)) :
    progFromByte (values.getD 13 0) = some s'.prog
    ∧ (values.getD 14 0) &&& 0x20 = 0 := by
  unfold load_bytes at h
  obtain ⟨s16, h15c, h16⟩ := andThen_ok h
  obtain ⟨s15, h14c, h15⟩ := andThen_ok h15c
  obtain ⟨s14, h13c, h14⟩ := andThen_ok h14c
  obtain ⟨s13, h12c, h13⟩ := andThen_ok h13c
  obtain ⟨s12, h11c, h12⟩ := andThen_ok h12c
  obtain ⟨s11, h10c, h11⟩ := andThen_ok h11c
  obtain ⟨s10, h9c, h10⟩ := andThen_ok h10c
  obtain ⟨s9, h8c, h9⟩ := andThen_ok h9c
  obtain ⟨s8, h7c, h8⟩ := andThen_ok h8c
  obtain ⟨s7, h6c, h7⟩ := andThen_ok h7c
  obtain ⟨s6, h5c, h6⟩ := andThen_ok h6c
  obtain ⟨s5, hconstc, h5⟩ := andThen_ok h5c
  have e16 := ld16_ok h16
  have e15 := ld15_ok h15
  have e14 := ld14_ok h14
  have e13 := ld13_ok h13
  have e12 := ld12_ok h12
  have e11 := ld11_ok h11
  have e10 := ld10_ok h10
  have e9 := ld9_ok h9
  have e8 := ld8_ok h8
  have e7 := ld7_ok h7
  have e6 := ld6_ok h6
  have hmode14 : s14.hvac_mode = s7.hvac_mode := by
    rw [e13.2, e12.1, e11.1, e10.1, e9.1, e8.1, e7.1]
  have hne : s14.hvac_mode ≠ "cool" := by
    rw [hmode14]
    exact hvacFromByte6_ne_cool e6.1
  constructor
  · rw [e16, e15, e14.1]
    exact e13.1
  · exact e14.2 hne

-- A (bit mark, zero space) pair with exact timings decodes to a zero bit.
theorem pairsToBits_zero (rest : List Nat) :
    pairsToBits (HVAC_MISTSUBISHI_BIT_MARK ::
        HVAC_MISTSUBISHI_ZERO_SPACE :: rest) 300
    = match pairsToBits rest 300 with
      | Except.ok bits => Except.ok (false :: bits)
      | Except.error e => Except.error e := by
  have hred : pairsToBits (HVAC_MISTSUBISHI_BIT_MARK ::
        HVAC_MISTSUBISHI_ZERO_SPACE :: rest) 300
      = if tdiff HVAC_MISTSUBISHI_BIT_MARK HVAC_MISTSUBISHI_BIT_MARK < 300 then
          if tdiff HVAC_MISTSUBISHI_ZERO_SPACE HVAC_MISTSUBISHI_ZERO_SPACE < 300 then
            match pairsToBits rest 300 with
            | Except.ok bits => Except.ok (false :: bits)
            | Except.error e => Except.error e
          else if tdiff HVAC_MISTSUBISHI_ONE_SPACE HVAC_MISTSUBISHI_ZERO_SPACE < 300 then
            match pairsToBits rest 300 with
            | Except.ok bits => Except.ok (true :: bits)
            | Except.error e => Except.error e
          else Except.error DecodeErr.badTiming
        else Except.error DecodeErr.badMark := rfl
  rw [hred, if_pos (by decide), if_pos (by decide)]

-- A (bit mark, one space) pair with exact timings decodes to a one bit.
theorem pairsToBits_one (rest : List Nat) :
    pairsToBits (HVAC_MISTSUBISHI_BIT_MARK ::
        HVAC_MISTSUBISHI_ONE_SPACE :: rest) 300
    = match pairsToBits rest 300 with
      | Except.ok bits => Except.ok (true :: bits)
      | Except.error e => Except.error e := by
  have hred : pairsToBits (HVAC_MISTSUBISHI_BIT_MARK ::
        HVAC_MISTSUBISHI_ONE_SPACE :: rest) 300
      = if tdiff HVAC_MISTSUBISHI_BIT_MARK HVAC_MISTSUBISHI_BIT_MARK < 300 then
          if tdiff HVAC_MISTSUBISHI_ZERO_SPACE HVAC_MISTSUBISHI_ONE_SPACE < 300 then
            match pairsToBits rest 300 with
            | Except.ok bits => Except.ok (false :: bits)
            | Except.error e => Except.error e
          else if tdiff HVAC_MISTSUBISHI_ONE_SPACE HVAC_MISTSUBISHI_ONE_SPACE < 300 then
            match pairsToBits rest 300 with
            | Except.ok bits => Except.ok (true :: bits)
            | Except.error e => Except.error e
          else Except.error DecodeErr.badTiming
        else Except.error DecodeErr.badMark := rfl
  rw [hred, if_pos (by decide), if_neg (by decide), if_pos (by decide)]

-- The generic pair step for a space chosen by a decidable condition, the
-- shape emitted by encodeByte.
theorem pairsToBits_ite (c : Prop) [Decidable c] (rest : List Nat) :
    pairsToBits (HVAC_MISTSUBISHI_BIT_MARK ::
        (if c then HVAC_MISTSUBISHI_ZERO_SPACE else HVAC_MISTSUBISHI_ONE_SPACE)
        :: rest) 300
    = match pairsToBits rest 300 with
      | Except.ok bits => Except.ok ((if c then false else true) :: bits)
      | Except.error e => Except.error e := by
  by_cases h : c
  · rw [if_pos h, if_pos h, pairsToBits_zero]
  · rw [if_neg h, if_neg h, pairsToBits_one]

-- Decoding the eight pairs emitted for one byte produces its bit view.
theorem pairsToBits_encodeByte (b : Nat) (rest : List Nat) :
    pairsToBits (encodeByte b ++ rest) 300
    = match pairsToBits rest 300 with
      | Except.ok bits => Except.ok (bitsOfByte b ++ bits)
      | Except.error e => Except.error e := by
  have hred : encodeByte b ++ rest
      = HVAC_MISTSUBISHI_BIT_MARK ::
        (if (1 <<< 0) &&& b = 0 then HVAC_MISTSUBISHI_ZERO_SPACE
         else HVAC_MISTSUBISHI_ONE_SPACE) ::
        HVAC_MISTSUBISHI_BIT_MARK ::
        (if (1 <<< 1) &&& b = 0 then HVAC_MISTSUBISHI_ZERO_SPACE
         else HVAC_MISTSUBISHI_ONE_SPACE) ::
        HVAC_MISTSUBISHI_BIT_MARK ::
        (if (1 <<< 2) &&& b = 0 then HVAC_MISTSUBISHI_ZERO_SPACE
         else HVAC_MISTSUBISHI_ONE_SPACE) ::
        HVAC_MISTSUBISHI_BIT_MARK ::
        (if (1 <<< 3) &&& b = 0 then HVAC_MISTSUBISHI_ZERO_SPACE
         else HVAC_MISTSUBISHI_ONE_SPACE) ::
        HVAC_MISTSUBISHI_BIT_MARK ::
        (if (1 <<< 4) &&& b = 0 then HVAC_MISTSUBISHI_ZERO_SPACE
         else HVAC_MISTSUBISHI_ONE_SPACE) ::
        HVAC_MISTSUBISHI_BIT_MARK ::
        (if (1 <<< 5) &&& b = 0 then HVAC_MISTSUBISHI_ZERO_SPACE
         else HVAC_MISTSUBISHI_ONE_SPACE) ::
        HVAC_MISTSUBISHI_BIT_MARK ::
        (if (1 <<< 6) &&& b = 0 then HVAC_MISTSUBISHI_ZERO_SPACE
         else HVAC_MISTSUBISHI_ONE_SPACE) ::
        HVAC_MISTSUBISHI_BIT_MARK ::
        (if (1 <<< 7) &&& b = 0 then HVAC_MISTSUBISHI_ZERO_SPACE
         else HVAC_MISTSUBISHI_ONE_SPACE) :: rest := rfl
  rw [hred, pairsToBits_ite, pairsToBits_ite, pairsToBits_ite, pairsToBits_ite,
      pairsToBits_ite, pairsToBits_ite, pairsToBits_ite, pairsToBits_ite]
  cases hr : pairsToBits rest 300 with
  | error e => rfl
  | ok bits => rfl

-- Decoding the pulse pairs of a whole byte list recovers all its bits.
theorem pairsToBits_flatMap (req : List Nat) :
    pairsToBits (req.flatMap encodeByte) 300
    = Except.ok (req.flatMap bitsOfByte) := by
  induction req with
  | nil => rfl
  | cons b req ih =>
    rw [List.flatMap_cons, pairsToBits_encodeByte, ih, List.flatMap_cons]

-- Reassembling the bit view of a byte below 256 gives the byte back.
theorem byteOfBits_bitsOfByte : ∀ b < 256, byteOfBits (bitsOfByte b) = b := by
  decide

-- Grouping the bits of a byte list back into bytes recovers the list.
theorem bytesOfBits_flatMap (req : List Nat) (hb : ∀ b ∈ req, b < 256) :
    bytesOfBits (req.flatMap bitsOfByte) = req := by
  induction req with
  | nil => rfl
  | cons b req ih =>
    rw [List.flatMap_cons]
    have hred : bytesOfBits (bitsOfByte b ++ req.flatMap bitsOfByte)
        = byteOfBits (bitsOfByte b) :: bytesOfBits (req.flatMap bitsOfByte) := rfl
    rw [hred, ih (fun x hx => hb x (List.mem_cons_of_mem b hx)),
        byteOfBits_bitsOfByte b (hb b (List.mem_cons_self b req))]

-- Each byte contributes 16 pulse values.
theorem length_flatMap_encodeByte (req : List Nat) :
    (req.flatMap encodeByte).length = 16 * req.length := by
  induction req with
  | nil => rfl
  | cons b req ih =>
    rw [List.flatMap_cons, List.length_append, ih]
    have h16 : (encodeByte b).length = 16 := rfl
    rw [h16, List.length_cons]
    omega

-- A perfectly timed header + data + repeat unit decodes to its byte list.
theorem decode291_encodeHalf (req : List Nat) (hlen : req.length = 18)
    (hb : ∀ b ∈ req, b < 256)
    (hchk : (req.take 17).sum % 256 = req.getD 17 0) :
    decode291 (encodeHalf req) 300 = Except.ok req := by
  have hBlen : (req.flatMap encodeByte).length = 288 := by
    rw [length_flatMap_encodeByte, hlen]
  have hshape : encodeHalf req
      = HVAC_MISTSUBISHI_HDR_MARK :: HVAC_MISTSUBISHI_HDR_SPACE ::
        (req.flatMap encodeByte ++ [HVAC_MISTSUBISHI_RPT_MARK]) := by
    unfold encodeHalf
    simp
  rw [hshape]
  unfold decode291
  have h0 : (HVAC_MISTSUBISHI_HDR_MARK :: HVAC_MISTSUBISHI_HDR_SPACE ::
      (req.flatMap encodeByte ++ [HVAC_MISTSUBISHI_RPT_MARK])).getD 0 0
      = HVAC_MISTSUBISHI_HDR_MARK := rfl
  have h1 : (HVAC_MISTSUBISHI_HDR_MARK :: HVAC_MISTSUBISHI_HDR_SPACE ::
      (req.flatMap encodeByte ++ [HVAC_MISTSUBISHI_RPT_MARK])).getD 1 0
      = HVAC_MISTSUBISHI_HDR_SPACE := rfl
  have h290 : (HVAC_MISTSUBISHI_HDR_MARK :: HVAC_MISTSUBISHI_HDR_SPACE ::
      (req.flatMap encodeByte ++ [HVAC_MISTSUBISHI_RPT_MARK])).getD 290 0
      = HVAC_MISTSUBISHI_RPT_MARK := by
    rw [List.getD_cons_succ, List.getD_cons_succ,
        List.getD_append_right _ _ _ _ (le_of_eq hBlen), hBlen]
    rfl
  rw [h0, h1, h290, if_pos (by decide), if_pos (by decide), if_pos (by decide)]
  have hdrop : (HVAC_MISTSUBISHI_HDR_MARK :: HVAC_MISTSUBISHI_HDR_SPACE ::
      (req.flatMap encodeByte ++ [HVAC_MISTSUBISHI_RPT_MARK])).drop 2
      = req.flatMap encodeByte ++ [HVAC_MISTSUBISHI_RPT_MARK] := rfl
  rw [hdrop, List.take_left' hBlen]
  unfold decode_bits
  rw [if_pos hBlen, pairsToBits_flatMap]
  simp only [bytesOfBits_flatMap req hb]
  rw [and255, if_pos hchk]

/-- C1: the round trip does not reproduce econoCool.  For the valid state
(on, cooling mode, vane auto, econo cool set) `to_bytes` produces a frame
whose byte 14 lacks the econo bit, because the emission condition compares
`hvac_mode` with the string "cool" while the mode dictionaries spell the
cooling mode "cold"; applying `load_bytes` to a fresh state succeeds and
yields `econo_cool = false`, so the claimed field-for-field round trip
fails at econoCool.  The code contradicts its own comments, which say the
vane is forced to auto and the bit is emitted whenever econo cool is set. -/
theorem c1_econo_cool_round_trip_lost :
    c1State.econo_cool = true
    ∧ to_bytes c1State 0 = some c1Frame
    ∧ c1Frame.getD 14 0 &&& 0x20 = 0
    ∧ (load_bytes initState c1Frame).2 = none
    ∧ (load_bytes initState c1Frame).1.econo_cool = false := by
  decide

/-- C2: to_bytes emits as byte 17 the truncated (mod 256) sum of bytes
0-16, and the bit decoder rejects with the checksum error every assembled
18-byte candidate whose byte 17 differs from that computed value. -/
theorem c2_checksum :
    (∀ (s : State) (now : Nat) (ret : List Nat), to_bytes s now = some ret →
      ret.length = 18 ∧ ret.getD 17 0 = (ret.take 17).sum % 256)
    ∧ (∀ (values : List Nat) (tol : Nat) (bits : List Bool),
        values.length = 288 → pairsToBits values tol = Except.ok bits →
        (bytesOfBits bits).getD 17 0 ≠ ((bytesOfBits bits).take 17).sum % 256 →
        decode_bits values tol = Except.error DecodeErr.checksumError) := by
  constructor
  · intro s now ret h
    unfold to_bytes at h
    rcases Option.map_eq_some'.mp h with ⟨r, hr, hf⟩
    have hlen : r.length = 17 := to_bytes_body_length hr
    subst hf
    constructor
    · simp [hlen]
    · rw [List.getD_append_right r [r.sum &&& 0xFF] 0 17 (by omega),
          List.take_left' hlen, hlen]
      simp [and255]
  · intro values tol bits hlen hbits hne
    unfold decode_bits
    rw [if_pos hlen, hbits]
    have hcond : ¬ (((bytesOfBits bits).take 17).sum &&& 0xFF
        = (bytesOfBits bits).getD 17 0) := by
      rw [and255]
      exact fun hc => hne hc.symm
    simp only [if_neg hcond]

/-- Witness for C2: the frame of the default state carries the mod-256 sum
as byte 17, and the bit decoder rejects the well-timed pulse train of the
source-comment sample frame once its checksum byte is changed to 0x0C. -/
theorem c2_checksum_witness :
    (to_bytes initState 0 = some c2Frame
      ∧ c2Frame.getD 17 0 = (c2Frame.take 17).sum % 256)
    ∧ decode_bits (c2BadFrame.flatMap encodeByte) 300
        = Except.error DecodeErr.checksumError := by
  refine ⟨⟨by decide, (c2_checksum.1 initState 0 c2Frame (by decide)).2⟩, ?_⟩
  exact c2_checksum.2 (c2BadFrame.flatMap encodeByte) 300
    (c2BadFrame.flatMap bitsOfByte) (by decide) (by decide) (by decide)

/-- C3: for every structurally valid 18-byte frame (each element an
unsigned byte, byte 17 the truncated sum of bytes 0-16), decoding the
pulse train produced by encode with the default 300 microsecond tolerance
yields exactly that frame. -/
theorem c3_pulse_round_trip (req : List Nat) (hlen : req.length = 18)
    (hb : ∀ b ∈ req, b < 256)
    (hchk : (req.take 17).sum % 256 = req.getD 17 0) :
    decode (encode req) 300 = Except.ok req := by
  have hBlen : (req.flatMap encodeByte).length = 288 := by
    rw [length_flatMap_encodeByte, hlen]
  have hhalf : (encodeHalf req).length = 291 := by
    unfold encodeHalf
    simp [hBlen]
  have hsplit : encode req
      = encodeHalf req ++ HVAC_MISTSUBISHI_RPT_SPACE :: encodeHalf req := by
    unfold encode encodeHalf
    simp
  rw [hsplit]
  unfold decode
  have hlen583 : (encodeHalf req
      ++ HVAC_MISTSUBISHI_RPT_SPACE :: encodeHalf req).length = 583 := by
    simp [hhalf]
  rw [if_pos hlen583]
  have hgap : (encodeHalf req
      ++ HVAC_MISTSUBISHI_RPT_SPACE :: encodeHalf req).getD 291 0
      = HVAC_MISTSUBISHI_RPT_SPACE := by
    rw [List.getD_append_right _ _ _ _ (le_of_eq hhalf), hhalf]
    rfl
  rw [hgap, if_pos (by decide)]
  have htake : (encodeHalf req
      ++ HVAC_MISTSUBISHI_RPT_SPACE :: encodeHalf req).take 291
      = encodeHalf req := List.take_left' hhalf
  have hdrop : (encodeHalf req
      ++ HVAC_MISTSUBISHI_RPT_SPACE :: encodeHalf req).drop 292
      = encodeHalf req := by
    rw [show encodeHalf req ++ HVAC_MISTSUBISHI_RPT_SPACE :: encodeHalf req
        = (encodeHalf req ++ [HVAC_MISTSUBISHI_RPT_SPACE]) ++ encodeHalf req
        by simp]
    exact List.drop_left' (by simp [hhalf])
  rw [htake, hdrop, decode291_encodeHalf req hlen hb hchk]
  simp

/-- Witness for C3 at the source-comment sample frame. -/
theorem c3_pulse_round_trip_witness :
    decode (encode c3Frame) 300 = Except.ok c3Frame :=
  c3_pulse_round_trip c3Frame (by decide) (by decide) (by decide)

/-- C4, counterexample: with econo cool set and mode heat, to_bytes
silently produces a frame (validation does not fail) and load_bytes
accepts that frame without any error, contradicting the claim that a
frame is never silently produced in that situation. -/
theorem c4_econo_heat_silently_encoded :
    c4State.econo_cool = true ∧ c4State.hvac_mode = "heat"
    ∧ to_bytes c4State 0 = some c4Frame
    ∧ (load_bytes initState c4Frame).2 = none := by
  decide

/-- C4, amended: when econo cool is set while the mode is not cool,
to_bytes silently suppresses the econo bit (byte 14 bit 0x20 is clear in
the produced frame) instead of failing, and the frame it produces decodes
without error; on decode, every frame whose byte 14 has the econo bit set
is rejected (so in particular one with a mode other than cool or a vane
other than auto), because the strict check compares the decoded mode
string, which is never "cool", against "cool". -/
theorem c4_econo_suppressed_not_failing :
    (∀ (s : State) (now : Nat) (ret : List Nat),
      s.econo_cool = true → s.hvac_mode ≠ "cool" →
      to_bytes s now = some ret → ret.getD 14 0 &&& 0x20 = 0)
    ∧ (∀ (s s' : State) (values : List Nat),
      load_bytes s values = (s', none) → (values.getD 14 0) &&& 0x20 = 0) := by
  constructor
  · intro s now ret _ hm h
    unfold to_bytes at h
    rcases Option.map_eq_some'.mp h with ⟨r, hr, hf⟩
    subst hf
    have hlen : r.length = 17 := to_bytes_body_length hr
    have h14 : (r ++ [r.sum &&& 0xFF]).getD 14 0 = r.getD 14 0 := by
      rw [List.getD_append _ _ _ _ (by omega)]
    rw [h14]
    exact to_bytes_body_byte14_bit_clear hm hr
  · intro s s' values h
    exact (load_bytes_ok_inv h).2

/-- Witness for C4, amended: the heat-mode econo state encodes with a
clear econo bit, and the successful load of its frame certifies the
decode-side conjunct. -/
theorem c4_econo_suppressed_not_failing_witness :
    c4Frame.getD 14 0 &&& 0x20 = 0 :=
  c4_econo_suppressed_not_failing.1 c4State 0 c4Frame
    (by decide) (by decide) (by decide)

/-- C8: to_bytes always emits 0x00 as byte 13 whatever the timer program
field holds (the encoder never reconstructs this byte), while a successful
load_bytes maps byte 13 to the timer program through the exact dictionary
whose only entries are 0x00, 0x05, 0x03 and 0x07, and any other byte 13
value is outside the dictionary, so loading fails. -/
theorem c8_byte13_asymmetry :
    (∀ (s : State) (now : Nat) (ret : List Nat),
      to_bytes s now = some ret → ret.getD 13 0 = 0)
    ∧ (∀ (s s' : State) (values : List Nat),
      load_bytes s values = (s', none) →
      progFromByte (values.getD 13 0) = some s'.prog)
    ∧ progFromByte 0x00 = some "none" ∧ progFromByte 0x05 = some "start"
    ∧ progFromByte 0x03 = some "end" ∧ progFromByte 0x07 = some "startend"
    ∧ (∀ b : Nat, b ≠ 0x00 → b ≠ 0x05 → b ≠ 0x03 → b ≠ 0x07 →
        progFromByte b = none) := by
  refine ⟨?_, ?_, rfl, rfl, rfl, rfl, ?_⟩
  · intro s now ret h
    unfold to_bytes at h
    rcases Option.map_eq_some'.mp h with ⟨r, hr, hf⟩
    subst hf
    have hlen : r.length = 17 := to_bytes_body_length hr
    have h13 : (r ++ [r.sum &&& 0xFF]).getD 13 0 = r.getD 13 0 := by
      rw [List.getD_append _ _ _ _ (by omega)]
    rw [h13]
    exact to_bytes_body_byte13 hr
  · intro s s' values h
    exact (load_bytes_ok_inv h).1
  · intro b h0 h5 h3 h7
    unfold progFromByte
    split <;> simp_all

/-- Witness for C8: the default-state frame has 0x00 at byte 13, and
loading the frame whose byte 13 is 0x05 sets the start timer program. -/
theorem c8_byte13_asymmetry_witness :
    c2Frame.getD 13 0 = 0
    ∧ progFromByte (c8Frame.getD 13 0)
        = some ((load_bytes initState c8Frame).1.prog) := by
  constructor
  · exact c8_byte13_asymmetry.1 initState 0 c2Frame (by decide)
  · exact c8_byte13_asymmetry.2.1 initState
      ((load_bytes initState c8Frame).1) c8Frame (by decide)

/-- C5: on a 583-value input, decode first requires the separating space
at index 291 to be within twice the tolerance of the repeat-space
duration, then decodes the two 291-length halves independently: one
success returns that frame, two successes must agree byte for byte (else
the repeat-mismatch error), and two failures give the no-valid-frame
error. -/
theorem c5_double_frame_reconciliation (values : List Nat) (tol : Nat)
    (hlen : values.length = 583) :
    (tol * 2 ≤ tdiff HVAC_MISTSUBISHI_RPT_SPACE (values.getD 291 0) →
      decode values tol = Except.error DecodeErr.badRptSpace)
    ∧ (tdiff HVAC_MISTSUBISHI_RPT_SPACE (values.getD 291 0) < tol * 2 →
      (∀ mesg1 e2, decode291 (values.take 291) tol = Except.ok mesg1 →
        decode291 (values.drop 292) tol = Except.error e2 →
        decode values tol = Except.ok mesg1)
      ∧ (∀ e1 mesg2, decode291 (values.take 291) tol = Except.error e1 →
        decode291 (values.drop 292) tol = Except.ok mesg2 →
        decode values tol = Except.ok mesg2)
      ∧ (∀ mesg1 mesg2, decode291 (values.take 291) tol = Except.ok mesg1 →
        decode291 (values.drop 292) tol = Except.ok mesg2 →
        (mesg1 = mesg2 → decode values tol = Except.ok mesg1)
        ∧ (mesg1 ≠ mesg2 →
            decode values tol = Except.error DecodeErr.repeatMismatch))
      ∧ (∀ e1 e2, decode291 (values.take 291) tol = Except.error e1 →
        decode291 (values.drop 292) tol = Except.error e2 →
        decode values tol = Except.error DecodeErr.noValidFrame)) := by
  unfold decode
  rw [if_pos hlen]
  constructor
  · intro hge
    rw [if_neg (by omega)]
  · intro hlt
    rw [if_pos hlt]
    refine ⟨?_, ?_, ?_, ?_⟩
    · intro mesg1 e2 h1 h2
      rw [h1, h2]
    · intro e1 mesg2 h1 h2
      rw [h1, h2]
    · intro mesg1 mesg2 h1 h2
      rw [h1, h2]
      constructor
      · intro he
        subst he
        simp
      · intro hne
        simp [hne]
    · intro e1 e2 h1 h2
      rw [h1, h2]

/-- Witness for C5: the two halves of the encoded sample frame agree, so
the double-frame input decodes to the sample frame. -/
theorem c5_double_frame_reconciliation_witness :
    decode (encode c5Frame) 300 = Except.ok c5Frame := by
  have h := c5_double_frame_reconciliation (encode c5Frame) 300 (by decide)
  exact ((h.2 (by decide)).2.2.1 c5Frame c5Frame (by decide) (by decide)).1 rfl

/-- C6, counterexample: a checksum error inside a successfully framed
sub-attempt does not propagate.  The first half of this 583-value input is
perfectly timed but carries a frame whose checksum byte is wrong, so its
sub-decode fails with the checksum error; decode nevertheless returns the
other half, so the call succeeds and the checksum failure is suppressed by
the bare except of the reconciliation. -/
theorem c6_checksum_error_suppressed :
    c6Vals.length = 583
    ∧ c6Vals.take 291 = c6BadHalf
    ∧ decode291 c6BadHalf 300 = Except.error DecodeErr.checksumError
    ∧ decode c6Vals 300 = Except.ok c6Good := by
  refine ⟨by decide, by decide, by decide, by decide⟩

/-- C6, amended: during double-frame reconciliation and header search all
failures of a sub-attempt, including the checksum error, are caught
internally: a failing half is ignored when the other half decodes, and the
header search steps past an offset whose 291-length decode fails for any
reason.  A checksum error propagates to the caller only from the direct
length-291 path, where decode is exactly the single-frame decoder. -/
theorem c6_sub_attempt_failures_caught :
    (∀ (values : List Nat) (tol : Nat) (mesg : List Nat),
      values.length = 583 →
      tdiff HVAC_MISTSUBISHI_RPT_SPACE (values.getD 291 0) < tol * 2 →
      decode291 (values.take 291) tol = Except.error DecodeErr.checksumError →
      decode291 (values.drop 292) tol = Except.ok mesg →
      decode values tol = Except.ok mesg)
    ∧ (∀ (values : List Nat) (tol i : Nat) (e : DecodeErr),
      i + 291 ≤ values.length →
      decode291 ((values.drop i).take 291) tol = Except.error e →
      headerSearch values tol i = headerSearch values tol (i + 1))
    ∧ (∀ (values : List Nat) (tol : Nat), values.length = 291 →
      decode values tol = decode291 values tol) := by
  refine ⟨?_, ?_, ?_⟩
  · intro values tol mesg hlen hgap h1 h2
    unfold decode
    rw [if_pos hlen, if_pos hgap, h1, h2]
  · intro values tol i e hle he
    conv_lhs => rw [headerSearch]
    rw [dif_pos hle]
    by_cases hm : tdiff HVAC_MISTSUBISHI_HDR_MARK (values.getD i 0) < tol * 2
    · rw [if_pos hm, he]
    · rw [if_neg hm]
  · intro values tol hlen
    unfold decode
    rw [if_neg (by omega), if_pos hlen]

/-- Witness for C6 at the concrete double-frame input with one corrupted
half. -/
theorem c6_sub_attempt_failures_caught_witness :
    decode c6Vals 300 = Except.ok c6Good :=
  c6_sub_attempt_failures_caught.1 c6Vals 300 c6Good
    (by decide) (by decide) (by decide) (by decide)

/-- C7: in the bit decoder with tolerance t, a space of exactly
zero-space + t - 1 decodes as a zero bit, while a space at or beyond
zero-space + t that is also at least t away from the one-space duration
fails with the bad-timing error instead of being guessed. -/
theorem c7_tolerance_boundary (t : Nat) (ht : 1 ≤ t) (rest : List Nat) :
    (pairsToBits (HVAC_MISTSUBISHI_BIT_MARK ::
        (HVAC_MISTSUBISHI_ZERO_SPACE + t - 1) :: rest) t
      = match pairsToBits rest t with
        | Except.ok bits => Except.ok (false :: bits)
        | Except.error e => Except.error e)
    ∧ ∀ sp : Nat, HVAC_MISTSUBISHI_ZERO_SPACE + t ≤ sp →
        t ≤ tdiff HVAC_MISTSUBISHI_ONE_SPACE sp →
        pairsToBits (HVAC_MISTSUBISHI_BIT_MARK :: sp :: rest) t
          = Except.error DecodeErr.badTiming := by
  have h1 : tdiff HVAC_MISTSUBISHI_BIT_MARK HVAC_MISTSUBISHI_BIT_MARK < t := by
    have h0 : tdiff HVAC_MISTSUBISHI_BIT_MARK HVAC_MISTSUBISHI_BIT_MARK = 0 := rfl
    omega
  constructor
  · have hred : pairsToBits (HVAC_MISTSUBISHI_BIT_MARK ::
          (HVAC_MISTSUBISHI_ZERO_SPACE + t - 1) :: rest) t
        = if tdiff HVAC_MISTSUBISHI_BIT_MARK HVAC_MISTSUBISHI_BIT_MARK < t then
            if tdiff HVAC_MISTSUBISHI_ZERO_SPACE
                (HVAC_MISTSUBISHI_ZERO_SPACE + t - 1) < t then
              match pairsToBits rest t with
              | Except.ok bits => Except.ok (false :: bits)
              | Except.error e => Except.error e
            else if tdiff HVAC_MISTSUBISHI_ONE_SPACE
                (HVAC_MISTSUBISHI_ZERO_SPACE + t - 1) < t then
              match pairsToBits rest t with
              | Except.ok bits => Except.ok (true :: bits)
              | Except.error e => Except.error e
            else Except.error DecodeErr.badTiming
          else Except.error DecodeErr.badMark := rfl
    have h2 : tdiff HVAC_MISTSUBISHI_ZERO_SPACE
        (HVAC_MISTSUBISHI_ZERO_SPACE + t - 1) < t := by
      show tdiff 420 (420 + t - 1) < t
      unfold tdiff
      split <;> omega
    rw [hred, if_pos h1, if_pos h2]
  · intro sp hsp hone
    have hred : pairsToBits (HVAC_MISTSUBISHI_BIT_MARK :: sp :: rest) t
        = if tdiff HVAC_MISTSUBISHI_BIT_MARK HVAC_MISTSUBISHI_BIT_MARK < t then
            if tdiff HVAC_MISTSUBISHI_ZERO_SPACE sp < t then
              match pairsToBits rest t with
              | Except.ok bits => Except.ok (false :: bits)
              | Except.error e => Except.error e
            else if tdiff HVAC_MISTSUBISHI_ONE_SPACE sp < t then
              match pairsToBits rest t with
              | Except.ok bits => Except.ok (true :: bits)
              | Except.error e => Except.error e
            else Except.error DecodeErr.badTiming
          else Except.error DecodeErr.badMark := rfl
    have h3 : ¬ tdiff HVAC_MISTSUBISHI_ZERO_SPACE sp < t := by
      have hsp' : 420 + t ≤ sp := hsp
      show ¬ tdiff 420 sp < t
      unfold tdiff
      split <;> omega
    have h4 : ¬ tdiff HVAC_MISTSUBISHI_ONE_SPACE sp < t := by omega
    rw [hred, if_pos h1, if_neg h3, if_neg h4]

/-- Witness for C7 at the default tolerance 300: a space of 719
microseconds decodes as zero and a space of 720 microseconds (which is 580
away from the one-space duration) is rejected. -/
theorem c7_tolerance_boundary_witness :
    pairsToBits [450, 719] 300 = Except.ok [false]
    ∧ pairsToBits [450, 720] 300 = Except.error DecodeErr.badTiming := by
  constructor
  · have h := (c7_tolerance_boundary 300 (by decide) []).1
    simpa using h
  · exact (c7_tolerance_boundary 300 (by decide) []).2 720 (by decide) (by decide)

/-- C10: load_bytes is not atomic.  On a frame with a valid preamble and
valid bytes 5-7 but a reserved-bit violation in byte 8, it fails, yet the
on, isee, mode and temperature fields decoded from the earlier bytes are
already updated in the target state. -/
theorem c10_partial_mutation_on_bad_byte8 :
    load_bytes initState c10Frame =
      ({initState with «on» := true, isee := true, hvac_mode := "cold",
                       temp := 22}, some LoadErr.badBits8)
    ∧ initState.«on» = false ∧ initState.isee = false
    ∧ initState.hvac_mode = "auto" ∧ initState.temp = 20 := by
  decide

end HeatPump

namespace Server

open HeatPump

/-- C9: the start_time key of the /api/set handler does not update the
start_time field; the source line `pump.end_time = data['start_time']`
writes the supplied value into end_time instead (the prog, econo_cool and
long_mode branches have the same slip).  Posting start_time 5 to the
default state leaves start_time at 0 and sets end_time to 5. -/
theorem c9_start_time_key_writes_end_time :
    apiSet initState { start_time? := some 5 } =
      ({initState with end_time := 5}, none)
    ∧ initState.start_time = 0
    ∧ (apiSet initState { start_time? := some 5 }).1.start_time = 0
    ∧ (apiSet initState { start_time? := some 5 }).1.end_time = 5 := by
  decide

end Server
